import Mathlib

/-!
Shallow embedding of `src/v8js_class.cc` (the V8Js PHP extension class):
the `v8js_ctx` state container, its construction (`PHP_METHOD(V8Js,
__construct)`), teardown (`v8js_free_storage`), script compilation and
execution (`v8js_compile_script`, `v8js_execute_script`), the limit
setters (`setTimeLimit`, `setMemoryLimit`), snapshot creation
(`createSnapshotDataBlob`, `createSnapshot`) and the object handlers
(`v8js_write_property`, `v8js_unset_property`).

Machine integers: `ZSTR_LEN` is a `size_t`; the code guards every string
against `std::numeric_limits<int>::max()` before narrowing, so lengths are
modelled as `Nat` compared against `intMax`.  Engine (V8) behaviour that
is external to this translation unit — whether a source text parses,
whether the seed script of a snapshot runs, the bytes `CreateBlob`
produces — enters the model as explicit parameters.
-/

namespace V8js

/-- `std::numeric_limits<int>::max()` for the 32-bit `int` the code narrows to. -/
def intMax : Nat := 2147483647

/-- PHP zval values, to the extent the modelled code inspects them. -/
inductive Zval where
  | null
  | str (s : String)
  | long (n : Int)
  | boolean (b : Bool)
  | other
deriving Repr, DecidableEq

/-- `Z_TYPE_P(z) == IS_STRING` -/
def Zval.isString : Zval → Bool
  | .str _ => true
  | _ => false

/-- Result of `zend_get_property_info(ce, member, 1)`. -/
inductive PropInfo where
  | notFound                 -- NULL
  | wrong                    -- ZEND_WRONG_PROPERTY_INFO
  | found (isPublic : Bool)  -- flags & ZEND_ACC_PUBLIC
deriving Repr, DecidableEq

/-- A guest (V8) value as far as the host code distinguishes them:
either the marshalled image of a zval (`zval_to_v8js`) or an exported
method's function object. -/
inductive GuestVal where
  | ofZval (z : Zval)
  | functionOf (methodName : String)
deriving Repr, DecidableEq

/-- A PHP exception thrown by the modelled code: `v8jsException` is
`zend_throw_exception(php_ce_v8js_exception, msg, 0)`;
`scriptException` is what `v8js_throw_script_exception` raises on a
compile error (see its spec-modelled definition below). -/
inductive PhpExn where
  | v8jsException (msg : String)
  | scriptException (msg : String) (line col : Nat)
deriving Repr, DecidableEq

/-- One entry of a method table (`zend_function` as inspected by the
export loop of `__construct`). -/
structure MethodEntry where
  name : String
  isPublic : Bool        -- fn_flags & ZEND_ACC_PUBLIC
  isCtorOrDtor : Bool    -- fn_flags & (ZEND_ACC_CTOR|ZEND_ACC_DTOR)
deriving Repr, DecidableEq

/-- The `v8js_ctx` state container (one per V8Js PHP object), together
with the class-level data (`std.ce`) the handlers consult.  Persistent
V8 handles are modelled by their observable content; `externalMemory` is
the isolate's external-allocated-memory counter as adjusted by this
translation unit. -/
structure V8jsCtx where
  id : Nat                                     -- object identity (the `c` pointer)
  ceName : String                              -- Z_OBJCE_P(getThis())->name
  classPropInfo : List (String × PropInfo)     -- zend_get_property_info table
  stdProps : List (String × Zval)              -- zend_std_get_properties snapshot
  hostProps : List (String × Zval)             -- PHP-side property storage (std handlers)
  classMethods : List MethodEntry              -- std.ce->function_table
  contextNonEmpty : Bool                       -- !c->context.IsEmpty()
  isolateCreated : Bool                        -- c->isolate != nullptr
  createParamsInit : Bool                      -- placement-new of create_params ran
  snapshotSeeded : Bool                        -- create_params.snapshot_blob set
  zval_snapshot_blob : Zval
  object_name : Option String                  -- persistent object_name (none = empty)
  globalTemplateSet : Bool
  exportedInstalled : Bool                     -- PHP object defined on guest global
  jsObjProps : List (String × GuestVal × Bool) -- exported object: name, value, readOnly
  in_execution : Bool
  time_limit : Int
  time_limit_hit : Bool
  memory_limit : Nat
  memory_limit_hit : Bool
  average_object_size : Int
  module_normaliser : Zval
  module_loader : Zval
  call_impls : List Nat
  method_tmpls : List String
  template_cache : List Nat
  accessor_list : List String
  weak_objects : List Nat
  weak_closures : List Nat
  v8js_v8objects : List Nat
  script_objects : List Nat                    -- indices into the script store
  modules_loaded : List Nat
  externalMemory : Int
deriving Repr, DecidableEq

/-- `v8js_new`: the object as `ecalloc` + the constructor of `v8js_ctx`
leave it — every container empty, every handle empty, flags cleared,
`average_object_size = 1024`. -/
def v8js_new (id : Nat) (ceName : String)
    (classPropInfo : List (String × PropInfo)) (stdProps : List (String × Zval))
    (classMethods : List MethodEntry) : V8jsCtx where
  id := id
  ceName := ceName
  classPropInfo := classPropInfo
  stdProps := stdProps
  hostProps := stdProps
  classMethods := classMethods
  contextNonEmpty := false
  isolateCreated := false
  createParamsInit := false
  snapshotSeeded := false
  zval_snapshot_blob := .null
  object_name := none
  globalTemplateSet := false
  exportedInstalled := false
  jsObjProps := []
  in_execution := false
  time_limit := 0
  time_limit_hit := false
  memory_limit := 0
  memory_limit_hit := false
  average_object_size := 1024
  module_normaliser := .null
  module_loader := .null
  call_impls := []
  method_tmpls := []
  template_cache := []
  accessor_list := []
  weak_objects := []
  weak_closures := []
  v8js_v8objects := []
  script_objects := []
  modules_loaded := []
  externalMemory := 0

/-- Arguments of `V8Js::__construct([string object_name [, array
variables [, string snapshot_blob]]])`; `none` = argument absent. -/
structure ConstructArgs where
  object_name : Option String
  vars_arr : Option (List String)
  snapshot_blob : Option Zval
deriving Repr, DecidableEq

/-- Engine behaviour external to this translation unit that
`__construct` depends on: whether `v8::Context::New` fails. -/
structure EngineEnv where
  contextCreationFails : Bool
deriving Repr, DecidableEq

/-- Outcome of a `__construct` call: the context afterwards, the
warnings emitted (`php_error_docref`/`zend_error` with `E_WARNING`, in
emission order), and the exception thrown, if any. -/
structure CtorResult where
  ctx : V8jsCtx
  warnings : List String
  exn : Option PhpExn
deriving Repr, DecidableEq

def snapshotOversizedMsg : String := "Snapshot size exceeds maximum supported length"

def snapshotTypeWarnMsg : String := "Argument snapshot_blob expected to be of string type"

def ceNameOversizedMsg : String := "PHP object class name exceeds maximum supported length"

def objNameOversizedMsg : String := "PHP JS object class name exceeds maximum supported length"

def propNameOversizedMsg : String := "Property name exceeds maximum supported length"

def methodNameOversizedMsg : String := "Method name exceeds maximum supported length"

def contextFailedMsg : String := "Failed to create V8 context."

/-- `fname` entries of `v8js_methods[]`: methods of \V8Js itself, never
exported to V8 (compared with `strcmp`, case-sensitive). -/
def v8jsBuiltinMethodNames : List String :=
  ["__construct", "__sleep", "__wakeup", "executeString", "compileString",
   "executeScript", "setModuleNormaliser", "setModuleLoader", "setTimeLimit",
   "setMemoryLimit", "setAverageObjectSize", "createSnapshot"]

/-- The `IS_MAGIC_FUNC` exclusion list of `__construct`'s method export
loop (compared with `strncasecmp`, case-insensitive). -/
def magicFuncNames : List String :=
  ["__callstatic", "__sleep", "__wakeup", "__set_state", "__get", "__set",
   "__unset", "__call", "__invoke", "__tostring", "__isset"]

def isMagicFunc (key : String) : Bool :=
  magicFuncNames.contains key.toLower

def lookupPropInfo (tbl : List (String × PropInfo)) (member : String) : PropInfo :=
  match tbl.find? (fun p => p.1 = member) with
  | some p => p.2
  | none => .notFound

/-- The property-export loop of `__construct` (lines 398–415): for every
member of the properties hash whose `property_info` is present, not
`ZEND_WRONG_PROPERTY_INFO`, and `ZEND_ACC_PUBLIC`, check the name length
and `DefineOwnProperty` the marshalled value read-only on the exported
object; an oversized name throws and aborts the loop. -/
def exportProps (infoTbl : List (String × PropInfo)) :
    List (String × Zval) → List (String × GuestVal × Bool) →
    Except PhpExn (List (String × GuestVal × Bool))
  | [], acc => .ok acc
  | (member, value) :: rest, acc =>
    match lookupPropInfo infoTbl member with
    | .found true =>
      if member.length > intMax then
        .error (.v8jsException propNameOversizedMsg)
      else
        exportProps infoTbl rest (acc ++ [(member, .ofZval value, true)])
    | _ => exportProps infoTbl rest acc

/-- The method-export loop of `__construct` (lines 424–481): skip
non-public methods, constructors/destructors, magic functions and \V8Js
builtins; an oversized name throws; otherwise cache the wrapped function
template in `method_tmpls` and `CreateDataProperty` it on the exported
object (methods are plain data properties, not read-only). -/
def exportMethods :
    List MethodEntry → List String → List (String × GuestVal × Bool) →
    Except PhpExn (List String × List (String × GuestVal × Bool))
  | [], tmpls, props => .ok (tmpls, props)
  | m :: rest, tmpls, props =>
    if !m.isPublic then exportMethods rest tmpls props
    else if m.isCtorOrDtor then exportMethods rest tmpls props
    else if isMagicFunc m.name then exportMethods rest tmpls props
    else if v8jsBuiltinMethodNames.contains m.name then exportMethods rest tmpls props
    else if m.name.length > intMax then
      .error (.v8jsException methodNameOversizedMsg)
    else
      exportMethods rest (tmpls ++ [m.name])
        (props ++ [(m.name, .functionOf m.name, false)])

/-- The tail of `PHP_METHOD(V8Js, __construct)` from `v8::Isolate::New`
(line 305) to the end of the method-export loop, in source order with the
source's early returns; `warns` carries the warnings already emitted. -/
def constructRest (eng : EngineEnv) (c : V8jsCtx) (args : ConstructArgs)
    (warns : List String) : CtorResult :=
  -- c->isolate = v8::Isolate::New(c->create_params); limits zeroed; module slots nulled
  let c := { c with
    isolateCreated := true, time_limit := 0, time_limit_hit := false,
    memory_limit := 0, memory_limit_hit := false,
    module_normaliser := .null, module_loader := .null,
    globalTemplateSet := true }
  -- v8::Context::New; if (context.IsEmpty()) throw
  if eng.contextCreationFails then
    ⟨c, warns, some (.v8jsException contextFailedMsg)⟩
  else
  let c := { c with contextNonEmpty := true }
  -- class-name length check
  if c.ceName.length > intMax then
    ⟨c, warns, some (.v8jsException ceNameOversizedMsg)⟩
  else
  -- v8js_register_accessors for passed variables
  let c := match args.vars_arr with
    | some vars => if vars.length > 0 then { c with accessor_list := vars } else c
    | none => c
  -- object-name handling
  let nameStep : Option String ⊕ String :=
    match args.object_name with
    | some s =>
      if s.length > 0 then
        if s.length > intMax then .inl none else .inr s
      else .inr "PHP"
    | none => .inr "PHP"
  match nameStep with
  | .inl _ => ⟨c, warns, some (.v8jsException objNameOversizedMsg)⟩
  | .inr objName =>
    let c := { c with object_name := some objName }
    -- DefineOwnProperty(global, object_name_js, php_obj, v8::ReadOnly)
    let c := { c with exportedInstalled := true }
    -- property export loop
    match exportProps c.classPropInfo c.stdProps [] with
    | .error e => ⟨c, warns, some e⟩
    | .ok props =>
      let c := { c with jsObjProps := props }
      -- method export loop
      match exportMethods c.classMethods [] c.jsObjProps with
      | .error e => ⟨c, warns, some e⟩
      | .ok (tmpls, props) =>
        ⟨{ c with method_tmpls := tmpls, jsObjProps := props }, warns, none⟩

/-- `PHP_METHOD(V8Js, __construct)` (lines 254–482), step for step.  The
second-call guard, the snapshot-blob handling (copy, length check, type
warning), then `constructRest` (isolate creation, context creation, the
class-name / object-name length checks, accessor registration,
exported-object installation, and the two export loops). -/
def v8js_construct (eng : EngineEnv) (c0 : V8jsCtx) (args : ConstructArgs) :
    CtorResult :=
  -- if (!c->context.IsEmpty()) { /* called __construct() twice, bail out */ return; }
  if c0.contextNonEmpty then ⟨c0, [], none⟩ else
  -- v8js_v8_init(); c->in_execution = 0; new (&c->create_params) CreateParams();
  -- allocator setup; new (&c->snapshot_blob) StartupData();
  let c := { c0 with in_execution := false, createParamsInit := true }
  -- snapshot_blob argument handling
  match args.snapshot_blob with
  | some (.str s) =>
    -- ZVAL_COPY(&c->zval_snapshot_blob, snapshot_blob);
    let c := { c with zval_snapshot_blob := .str s }
    if s.length > intMax then
      ⟨c, [], some (.v8jsException snapshotOversizedMsg)⟩
    else
      constructRest eng { c with snapshotSeeded := true } args []
  | some _ => constructRest eng c args [snapshotTypeWarnMsg]
  | none => constructRest eng c args []

/-- A context as it stands after a successful default construction:
guest context non-empty, isolate created. -/
def sampleConstructed : V8jsCtx :=
  { v8js_new 7 "V8Js" [] [] [] with
    contextNonEmpty := true, isolateCreated := true,
    object_name := some "PHP", exportedInstalled := true }

/-- A PHP string strictly longer than `std::numeric_limits<int>::max()`. -/
def bigBlob : String := String.mk (List.replicate (intMax + 1) 'a')

/-- A freshly allocated V8Js object (no properties, no extra methods). -/
def ctorFreshCtx : V8jsCtx := v8js_new 0 "V8Js" [] [] []

/-- One `v8js_script` resource (name for diagnostics, back-reference to
the owning context by identity, the compiled-script persistent handle). -/
structure V8jsScript where
  name : String
  owner : Option Nat      -- res->ctx; none models NULL
  persistentValid : Bool  -- the Persistent<Script> has not been Reset
deriving Repr, DecidableEq

/-- One observable action of `v8js_free_storage`, in execution order. -/
inductive TdEvent where
  | detachExported                    -- Delete exported object from guest global
  | releaseCallImpl                   -- call_impls entry Reset
  | releaseMethodTmpl                 -- method_tmpls entry Reset
  | releaseTemplateCache              -- template_cache entry Reset
  | releaseAccessor                   -- v8js_accessor_ctx_dtor
  | releaseContext                    -- context.Reset
  | releaseWeakObject (adjust : Int)  -- zval dtor + AdjustAmountOfExternalAllocatedMemory
  | releaseWeakClosure                -- weak_closures entry Reset + delete
  | clearV8Object                     -- v8js_v8objects entry: v8obj.Reset, ctx = NULL
  | clearScriptBackref (i : Nat)      -- script_objects entry: ctx = NULL, script->Reset
  | releaseModule                     -- modules_loaded entry efree + Reset
  | disposeIsolate                    -- c->isolate->Dispose()
  | releaseSnapshotBlob               -- zval_ptr_dtor(&c->zval_snapshot_blob)
deriving Repr, DecidableEq

/-- Whether an event releases a dependent of the isolate (everything the
teardown order must finish before `Dispose`). -/
def TdEvent.isDependentRelease : TdEvent → Bool
  | .disposeIsolate => false
  | .releaseSnapshotBlob => false
  | _ => true

/-- The loop over `c->script_objects` of `v8js_free_storage`: for each
still-live resource, clear its back-reference (`(*it)->ctx = NULL`) and
reset its compiled-script handle (`(*it)->script->Reset()`). -/
def clearScriptStep (slots : List V8jsScript) (i : Nat) : List V8jsScript :=
  match slots[i]? with
  | some s => slots.set i { s with owner := none, persistentValid := false }
  | none => slots

def clearScriptRefs : List Nat → List V8jsScript → List V8jsScript
  | [], slots => slots
  | i :: rest, slots => clearScriptRefs rest (clearScriptStep slots i)

/-- The dependent-release prefix of the teardown trace: every release
`v8js_free_storage` performs before the isolate may be disposed, in
source order (lines 84–177). -/
def tdDeps (c : V8jsCtx) : List TdEvent :=
  (if c.contextNonEmpty then [TdEvent.detachExported] else [])
  ++ c.call_impls.map (fun _ => TdEvent.releaseCallImpl)
  ++ c.method_tmpls.map (fun _ => TdEvent.releaseMethodTmpl)
  ++ c.template_cache.map (fun _ => TdEvent.releaseTemplateCache)
  ++ c.accessor_list.map (fun _ => TdEvent.releaseAccessor)
  ++ (if c.contextNonEmpty then [TdEvent.releaseContext] else [])
  ++ c.weak_objects.map
      (fun _ => TdEvent.releaseWeakObject (-c.average_object_size))
  ++ c.weak_closures.map (fun _ => TdEvent.releaseWeakClosure)
  ++ c.v8js_v8objects.map (fun _ => TdEvent.clearV8Object)
  ++ c.script_objects.map TdEvent.clearScriptBackref
  ++ c.modules_loaded.map (fun _ => TdEvent.releaseModule)

/-- `v8js_free_storage` (lines 75–196).  The source releases field after
field in a fixed order; no field is read again after its release, so the
final state is the single record update below, and the order of the
releases is recorded in the returned trace: the dependent releases of
`tdDeps` (module callables freed; exported object detached from the guest
global when the guest context exists; `object_name`/`global_template`/
`array_tmpl` reset; the `call_impls`, `method_tmpls`, `template_cache`
caches reset entry by entry; accessor contexts destroyed; context reset;
weak object references reset, adjusting the external-memory counter by
`-average_object_size` each; weak closure references reset; live
`v8js_v8object` back-references cleared; live script back-references
cleared via `clearScriptRefs`; module cache released), then
`c->isolate->Dispose()` iff the isolate was created, then
`zval_ptr_dtor(&c->zval_snapshot_blob)`. -/
def v8js_free_storage (c : V8jsCtx) (scripts : List V8jsScript) :
    V8jsCtx × List V8jsScript × List TdEvent :=
  ({ c with
      module_normaliser := Zval.null
      module_loader := Zval.null
      object_name := none
      globalTemplateSet := false
      call_impls := []
      method_tmpls := []
      template_cache := []
      accessor_list := []
      contextNonEmpty := false
      externalMemory :=
        c.weak_objects.foldl (fun m _ => m - c.average_object_size) c.externalMemory
      weak_objects := []
      weak_closures := []
      v8js_v8objects := []
      script_objects := []
      modules_loaded := []
      zval_snapshot_blob := Zval.null },
   clearScriptRefs c.script_objects scripts,
   tdDeps c ++ (if c.isolateCreated then [TdEvent.disposeIsolate] else [])
     ++ [TdEvent.releaseSnapshotBlob])

def wrongCtxWarnMsg : String := "Script resource from wrong V8Js object passed"

/-- What `v8js_v8_call` (in v8js_v8.cc, outside this translation unit)
reports back for one engine invocation: the value produced, the
exception raised while draining the result, and the process-wide
`V8JSG(fatal_error_abort)` marker after the call. -/
structure EngineRun where
  value : Zval
  exn : Option PhpExn
  fatalAbort : Bool
deriving Repr, DecidableEq

/-- Result of `v8js_execute_script`: the context and resource afterwards,
the produced value, warnings, the `(time_limit, memory_limit)` pair
actually handed to `v8js_v8_call` (`none` when the engine was never
invoked), whether `zend_bailout` fired, and the exception, if any. -/
structure ExecResult where
  ctx : V8jsCtx
  res : V8jsScript
  returnValue : Zval
  warnings : List String
  engineCall : Option (Int × Nat)
  bailout : Bool
  exn : Option PhpExn
deriving Repr, DecidableEq

/-- `v8js_execute_script` (lines 550–583): the owning-context guard
(`res->ctx != c` — warning plus boolean `false`, engine untouched), the
limit defaulting (`!c->in_execution && limit == 0` picks up the
context's configured default), the engine call, and the fatal-abort
bailout check. -/
def v8js_execute_script (c : V8jsCtx) (res : V8jsScript) (flags : Int)
    (time_limit : Int) (memory_limit : Nat) (er : EngineRun) : ExecResult :=
  -- if (res->ctx != c) { zend_error(E_WARNING, ...); ZVAL_BOOL(*return_value, 0); return; }
  if res.owner ≠ some c.id then
    { ctx := c, res := res, returnValue := .boolean false,
      warnings := [wrongCtxWarnMsg], engineCall := none, bailout := false,
      exn := none }
  else
    -- if (!c->in_execution && time_limit == 0) time_limit = c->time_limit;
    let time_limit := if !c.in_execution && time_limit = 0
      then c.time_limit else time_limit
    -- if (!c->in_execution && memory_limit == 0) memory_limit = c->memory_limit;
    let memory_limit := if !c.in_execution && memory_limit = 0
      then c.memory_limit else memory_limit
    -- v8js_v8_call(c, return_value, flags, time_limit, memory_limit, v8_call);
    -- if (V8JSG(fatal_error_abort)) zend_bailout();
    { ctx := c, res := res, returnValue := er.value,
      warnings := [], engineCall := some (time_limit, memory_limit),
      bailout := er.fatalAbort, exn := er.exn }

def memLimitNegativeMsg : String := "memory_limit must not be negative"

/-- One `v8js_timer_ctx` entry of the global watchdog registry
(`V8JSG(timer_stack)`). -/
structure TimerCtx where
  ctxId : Nat           -- (*it)->ctx, by context identity
  time_limit : Int
  memory_limit : Nat
  time_point : Int      -- deadline on the high-resolution clock
  killed : Bool
deriving Repr, DecidableEq

/-- The module globals the limit setters touch: the mutex-guarded timer
registry and whether the watchdog thread has been started. -/
structure V8jsGlobals where
  timer_stack : List TimerCtx
  timer_thread : Bool
deriving Repr, DecidableEq

/-- Observable actions of a limit setter, in execution order. -/
inductive SetLimitEvent where
  | lockMutex
  | mutateEntry
  | unlockMutex
  | startTimerThread
deriving Repr, DecidableEq

/-- `PHP_METHOD(V8Js, setTimeLimit)` (lines 706–738): store the new
default on the context; then, under `V8JSG(timer_mutex)`, update every
registry entry of this context that is not yet killed — new time limit
and a deadline recomputed as now + duration; finally start the watchdog
thread lazily when mid-execution with a nonzero limit and no thread yet.
`now` stands for `std::chrono::high_resolution_clock::now()`. -/
def v8js_setTimeLimit (c : V8jsCtx) (g : V8jsGlobals) (now : Int)
    (time_limit : Int) : V8jsCtx × V8jsGlobals × List SetLimitEvent :=
  let c1 := { c with time_limit := time_limit }
  let stack1 := g.timer_stack.map (fun t =>
    if t.ctxId = c1.id ∧ t.killed = false then
      { t with time_limit := time_limit, time_point := now + time_limit }
    else t)
  let muts := (g.timer_stack.filter
    (fun t => decide (t.ctxId = c1.id ∧ t.killed = false))).map
    (fun _ => SetLimitEvent.mutateEntry)
  let startThread := c1.in_execution && !(time_limit == 0) && !g.timer_thread
  (c1, { timer_stack := stack1, timer_thread := g.timer_thread || startThread },
   [SetLimitEvent.lockMutex] ++ muts ++ [SetLimitEvent.unlockMutex]
     ++ (if startThread then [SetLimitEvent.startTimerThread] else []))

/-- `PHP_METHOD(V8Js, setMemoryLimit)` (lines 742–775): reject a negative
limit with the invalid-argument exception before touching anything; else
store the new default, update every live matching registry entry under
the mutex, and start the watchdog thread lazily. -/
def v8js_setMemoryLimit (c : V8jsCtx) (g : V8jsGlobals) (memory_limit : Int) :
    V8jsCtx × V8jsGlobals × List SetLimitEvent × Option PhpExn :=
  if memory_limit < 0 then
    (c, g, [], some (.v8jsException memLimitNegativeMsg))
  else
    let ml : Nat := memory_limit.toNat   -- static_cast<size_t>(memory_limit)
    let c1 := { c with memory_limit := ml }
    let stack1 := g.timer_stack.map (fun t =>
      if t.ctxId = c1.id ∧ t.killed = false then
        { t with memory_limit := ml }
      else t)
    let muts := (g.timer_stack.filter
      (fun t => decide (t.ctxId = c1.id ∧ t.killed = false))).map
      (fun _ => SetLimitEvent.mutateEntry)
    let startThread := c1.in_execution && !(ml == 0) && !g.timer_thread
    (c1, { timer_stack := stack1, timer_thread := g.timer_thread || startThread },
     [SetLimitEvent.lockMutex] ++ muts ++ [SetLimitEvent.unlockMutex]
       ++ (if startThread then [SetLimitEvent.startTimerThread] else []), none)

def identifierOversizedMsg : String := "Script identifier exceeds maximum supported length"

def sourceOversizedMsg : String := "Script source exceeds maximum supported length"

def compileDefaultName : String := "V8Js::compileString()"

/-- What `v8::Script::Compile` reports for one source text: success, or
the syntax error the surrounding `v8::TryCatch` captured (message and
guest-reported location). -/
inductive CompileOutcome where
  | ok
  | syntaxError (msg : String) (line col : Nat)
deriving Repr, DecidableEq

/-- Modelled from the spec: `v8js_throw_script_exception` lives in
v8js_exceptions.cc, which is not among this repository's files; per the
spec it raises a `CompileError` "carrying guest-reported
location/message" taken from the try-catch. -/
def v8js_throw_script_exception (msg : String) (line col : Nat) : PhpExn :=
  .scriptException msg line col

/-- `identifier && ZSTR_LEN(identifier) > std::numeric_limits<int>::max()` -/
def identifierTooLong : Option String → Bool
  | some idf => idf.length > intMax
  | none => false

structure CompileResult where
  res : Option V8jsScript
  exn : Option PhpExn
deriving Repr, DecidableEq

/-- `v8js_compile_script` (lines 505–548): identifier length check,
script name selection (identifier or the compile-string default), source
length check, `v8::Script::Compile`, and on success a fresh
`v8js_script` whose `ctx` back-reference is the calling context. -/
def v8js_compile_script (c : V8jsCtx) (str : String) (identifier : Option String)
    (eng : CompileOutcome) : CompileResult :=
  if identifierTooLong identifier then
    ⟨none, some (.v8jsException identifierOversizedMsg)⟩
  else
    let sname := match identifier with
      | some idf => idf
      | none => compileDefaultName
    if str.length > intMax then
      ⟨none, some (.v8jsException sourceOversizedMsg)⟩
    else
      match eng with
      | .syntaxError msg line col =>
        ⟨none, some (v8js_throw_script_exception msg line col)⟩
      | .ok => ⟨some ⟨sname, some c.id, true⟩, none⟩

def emptyScriptWarnMsg : String := "Script cannot be empty"

def snapshotFailedWarnMsg : String :=
  "Failed to create V8 heap snapshot.  Check $embed_source for errors."

/-- Behaviour of the throwaway snapshot isolate on the seed script:
whether `v8::Script::Compile` succeeds, whether `Run` produces a value
(false = uncaught exception), and the bytes `CreateBlob` would capture
from the default-context heap state. -/
structure SeedEngine where
  compiles : Bool
  runsOk : Bool
  blob : List UInt8
deriving Repr, DecidableEq

/-- `createSnapshotDataBlob` (lines 835–858): compile and run the seed
script inside a fresh context; `{nullptr, 0}` (here `none`) if either
step fails, else `SetDefaultContext` and the full `CreateBlob` result. -/
def createSnapshotDataBlob (eng : SeedEngine) : Option (List UInt8) :=
  if !eng.compiles || !eng.runsOk then
    none
  else
    some eng.blob

/-- What `V8Js::createSnapshot` hands back to PHP. -/
inductive SnapRet where
  | failure                    -- RETURN_FALSE
  | blobStr (data : List UInt8)
deriving Repr, DecidableEq

/-- `PHP_METHOD(V8Js, createSnapshot)` (lines 863–891): empty source is
warned and refused before any engine work; a null blob from
`createSnapshotDataBlob` is warned and turned into `false`; otherwise
the blob's bytes are returned as a string. -/
def createSnapshot (script : String) (eng : SeedEngine) :
    SnapRet × List String :=
  if script.length = 0 then
    (.failure, [emptyScriptWarnMsg])
  else
    match createSnapshotDataBlob eng with
    | none => (.failure, [snapshotFailedWarnMsg])
    | some data => (.blobStr data, [])

/-- The export condition of `v8js_write_property` (lines 985–987):
`!property_info || (property_info != ZEND_WRONG_PROPERTY_INFO &&
(property_info->flags & ZEND_ACC_PUBLIC))` — an undeclared property or a
declared public one. -/
def exportCondition : PropInfo → Bool
  | .notFound => true
  | .wrong => false
  | .found pub => pub

/-- `std_object_handlers.write_property` as an association update
(replace the first binding or append). -/
def setAssoc : List (String × Zval) → String → Zval → List (String × Zval)
  | [], k, v => [(k, v)]
  | p :: rest, k, v =>
    if p.1 == k then (k, v) :: rest else p :: setAssoc rest k v

/-- `jsobj->DefineOwnProperty(ctx, key, val, attrs)` on the exported
object's property map. -/
def jsDefineOwn : List (String × GuestVal × Bool) → String → GuestVal → Bool →
    List (String × GuestVal × Bool)
  | [], k, v, ro => [(k, v, ro)]
  | p :: rest, k, v, ro =>
    if p.1 == k then (k, v, ro) :: rest else p :: jsDefineOwn rest k v ro

/-- `jsobj->Delete(ctx, key)` on the exported object's property map. -/
def jsDelete (l : List (String × GuestVal × Bool)) (k : String) :
    List (String × GuestVal × Bool) :=
  l.filter (fun p => p.1 != k)

/-- `v8js_write_property` (lines 977–1005): when the member is
undeclared or declared public, define it read-only on the guest-side
exported object with the marshalled value (after the name-length guard,
whose throw skips the host write too); in every non-throwing path, end
with the standard host-side property write. -/
def v8js_write_property (c : V8jsCtx) (member : String) (value : Zval) :
    V8jsCtx × Option PhpExn :=
  if exportCondition (lookupPropInfo c.classPropInfo member) then
    if member.length > intMax then
      (c, some (.v8jsException propNameOversizedMsg))   -- return value;
    else
      let c1 := { c with
        jsObjProps := jsDefineOwn c.jsObjProps member (.ofZval value) true }
      ({ c1 with hostProps := setAssoc c1.hostProps member value }, none)
  else
    ({ c with hostProps := setAssoc c.hostProps member value }, none)

/-- `v8js_unset_property` (lines 1008–1029): delete the member from the
guest-side exported object (no visibility check), then unset it on the
host side; the name-length guard throws before either. -/
def v8js_unset_property (c : V8jsCtx) (member : String) :
    V8jsCtx × Option PhpExn :=
  if member.length > intMax then
    (c, some (.v8jsException propNameOversizedMsg))
  else
    let c1 := { c with jsObjProps := jsDelete c.jsObjProps member }
    ({ c1 with hostProps := c1.hostProps.filter (fun p => p.1 != member) }, none)

/-- C1: on a context whose guest context is non-empty, `__construct`
returns at its first statement: the state is returned unchanged, no
warning is emitted, no exception is thrown — the engine instance is not
re-created and the exported object is not re-installed. -/
theorem construct_second_call_noop (eng : EngineEnv) (c : V8jsCtx)
    (args : ConstructArgs) (h : c.contextNonEmpty = true) :
    v8js_construct eng c args = ⟨c, [], none⟩ := by
  simp [v8js_construct, h]

theorem construct_second_call_noop_witness :
    v8js_construct ⟨false⟩ sampleConstructed ⟨none, none, none⟩ =
      ⟨sampleConstructed, [], none⟩ :=
  construct_second_call_noop ⟨false⟩ sampleConstructed ⟨none, none, none⟩ rfl

/-- The property-export loop only ever throws the property-name message. -/
theorem exportProps_error_eq (tbl : List (String × PropInfo)) :
    ∀ l acc e, exportProps tbl l acc = .error e →
      e = .v8jsException propNameOversizedMsg := by
  intro l
  induction l with
  | nil => intro acc e h; simp [exportProps] at h
  | cons hd tl ih =>
    intro acc e h
    unfold exportProps at h
    split at h
    · split at h
      · exact (Except.error.injEq _ _).mp h |>.symm
      · exact ih _ _ h
    · exact ih _ _ h

/-- The method-export loop only ever throws the method-name message. -/
theorem exportMethods_error_eq :
    ∀ l tmpls props e, exportMethods l tmpls props = .error e →
      e = .v8jsException methodNameOversizedMsg := by
  intro l
  induction l with
  | nil => intro tmpls props e h; simp [exportMethods] at h
  | cons hd tl ih =>
    intro tmpls props e h
    unfold exportMethods at h
    split at h
    · exact ih _ _ _ h
    · split at h
      · exact ih _ _ _ h
      · split at h
        · exact ih _ _ _ h
        · split at h
          · exact ih _ _ _ h
          · split at h
            · exact (Except.error.injEq _ _).mp h |>.symm
            · exact ih _ _ _ h

theorem constructRest_warnings (eng : EngineEnv) (c : V8jsCtx)
    (args : ConstructArgs) (warns : List String) :
    (constructRest eng c args warns).warnings = warns := by
  unfold constructRest
  repeat' first | split | dsimp only

theorem constructRest_isolateCreated (eng : EngineEnv) (c : V8jsCtx)
    (args : ConstructArgs) (warns : List String) :
    (constructRest eng c args warns).ctx.isolateCreated = true := by
  unfold constructRest
  repeat' first | split | dsimp only

theorem constructRest_snapshotSeeded (eng : EngineEnv) (c : V8jsCtx)
    (args : ConstructArgs) (warns : List String) :
    (constructRest eng c args warns).ctx.snapshotSeeded = c.snapshotSeeded := by
  unfold constructRest
  repeat' first | split | dsimp only

theorem constructRest_exn_ne_snapshotMsg (eng : EngineEnv) (c : V8jsCtx)
    (args : ConstructArgs) (warns : List String) :
    (constructRest eng c args warns).exn ≠
      some (.v8jsException snapshotOversizedMsg) := by
  unfold constructRest
  repeat' first | split | dsimp only
  all_goals
    first
      | decide
      | (intro h
         rename_i e heq
         first
           | (rw [exportProps_error_eq _ _ _ _ heq] at h; exact absurd h (by decide))
           | (rw [exportMethods_error_eq _ _ _ _ heq] at h; exact absurd h (by decide)))

/-- C6 (amended): an oversized snapshot blob makes `__construct` throw the
invalid-argument exception before the engine instance is created (the
isolate stays exactly as it was, the guest context stays empty, no warning
is emitted) — but not side-effect-free: the blob has already been copied
into the Context's `zval_snapshot_blob` slot, the in-execution flag has
been cleared, and `create_params` has been initialised, before the length
check fires. -/
theorem construct_oversized_blob_rejected (eng : EngineEnv) (c : V8jsCtx)
    (args : ConstructArgs) (s : String)
    (hc : c.contextNonEmpty = false) (hb : args.snapshot_blob = some (.str s))
    (hl : s.length > intMax) :
    v8js_construct eng c args =
      ⟨{ c with
          in_execution := false
          createParamsInit := true
          zval_snapshot_blob := .str s }, [],
        some (.v8jsException snapshotOversizedMsg)⟩ := by
  unfold v8js_construct
  rw [hb]
  simp [hc, hl]

theorem bigBlob_length : bigBlob.length = intMax + 1 := by
  show (List.replicate (intMax + 1) 'a').length = intMax + 1
  exact List.length_replicate _ _

/-- C6 counterexample: constructing with an oversized snapshot blob does
throw the invalid-argument exception, but the call is not free of side
effects on the Context — the state afterwards differs from the state
before (the blob was copied into `zval_snapshot_blob` and
`create_params` was initialised before the length check). -/
theorem construct_oversized_blob_counterexample :
    (v8js_construct ⟨false⟩ ctorFreshCtx ⟨none, none, some (.str bigBlob)⟩).exn
        = some (.v8jsException snapshotOversizedMsg) ∧
    (v8js_construct ⟨false⟩ ctorFreshCtx ⟨none, none, some (.str bigBlob)⟩).ctx
        ≠ ctorFreshCtx := by
  have hr : v8js_construct ⟨false⟩ ctorFreshCtx ⟨none, none, some (.str bigBlob)⟩ =
      ⟨{ ctorFreshCtx with
          in_execution := false
          createParamsInit := true
          zval_snapshot_blob := .str bigBlob }, [],
        some (.v8jsException snapshotOversizedMsg)⟩ := by
    unfold v8js_construct
    simp [ctorFreshCtx, v8js_new, bigBlob_length, intMax]
  refine ⟨by rw [hr], ?_⟩
  rw [hr]
  intro h
  have hfield := congrArg V8jsCtx.createParamsInit h
  simp [ctorFreshCtx, v8js_new] at hfield

theorem construct_oversized_blob_rejected_witness :
    v8js_construct ⟨false⟩ ctorFreshCtx ⟨none, none, some (.str bigBlob)⟩ =
      ⟨{ ctorFreshCtx with
          in_execution := false
          createParamsInit := true
          zval_snapshot_blob := .str bigBlob }, [],
        some (.v8jsException snapshotOversizedMsg)⟩ :=
  construct_oversized_blob_rejected ⟨false⟩ ctorFreshCtx
    ⟨none, none, some (.str bigBlob)⟩ bigBlob rfl rfl
    (by rw [bigBlob_length]; exact Nat.lt_succ_self _)

/-- C9: a snapshot-blob argument that is present but not a string makes
`__construct` emit the type warning and proceed: the engine instance is
created, no snapshot seeding happens (`snapshotSeeded` stays as it was),
and the oversized-blob invalid-argument exception is not thrown. -/
theorem construct_nonstring_blob_warns (eng : EngineEnv) (c : V8jsCtx)
    (args : ConstructArgs) (z : Zval)
    (hc : c.contextNonEmpty = false) (hz : args.snapshot_blob = some z)
    (hns : z.isString = false) :
    (v8js_construct eng c args).warnings = [snapshotTypeWarnMsg] ∧
    (v8js_construct eng c args).ctx.isolateCreated = true ∧
    (v8js_construct eng c args).ctx.snapshotSeeded = c.snapshotSeeded ∧
    (v8js_construct eng c args).exn ≠
      some (.v8jsException snapshotOversizedMsg) := by
  have hred : v8js_construct eng c args =
      constructRest eng { c with in_execution := false, createParamsInit := true }
        args [snapshotTypeWarnMsg] := by
    unfold v8js_construct
    rw [hz]
    cases z with
    | str s => simp [Zval.isString] at hns
    | null => simp [hc]
    | long n => simp [hc]
    | boolean b => simp [hc]
    | other => simp [hc]
  rw [hred]
  exact ⟨constructRest_warnings _ _ _ _, constructRest_isolateCreated _ _ _ _,
    constructRest_snapshotSeeded _ _ _ _, constructRest_exn_ne_snapshotMsg _ _ _ _⟩

theorem construct_nonstring_blob_warns_witness :
    (v8js_construct ⟨false⟩ ctorFreshCtx ⟨none, none, some .other⟩).warnings
        = [snapshotTypeWarnMsg] ∧
    (v8js_construct ⟨false⟩ ctorFreshCtx ⟨none, none, some .other⟩).ctx.isolateCreated
        = true ∧
    (v8js_construct ⟨false⟩ ctorFreshCtx ⟨none, none, some .other⟩).ctx.snapshotSeeded
        = ctorFreshCtx.snapshotSeeded ∧
    (v8js_construct ⟨false⟩ ctorFreshCtx ⟨none, none, some .other⟩).exn ≠
      some (.v8jsException snapshotOversizedMsg) :=
  construct_nonstring_blob_warns ⟨false⟩ ctorFreshCtx ⟨none, none, some .other⟩
    .other rfl rfl rfl

theorem clearScriptStep_ne (slots : List V8jsScript) (i j : Nat)
    (hji : j ≠ i) : (clearScriptStep slots i)[j]? = slots[j]? := by
  unfold clearScriptStep
  cases hsl : slots[i]? with
  | none => rfl
  | some s0 => exact List.getElem?_set_ne (Ne.symm hji)

theorem clearScriptRefs_not_mem (idxs : List Nat) (slots : List V8jsScript)
    (j : Nat) (hj : j ∉ idxs) : (clearScriptRefs idxs slots)[j]? = slots[j]? := by
  induction idxs generalizing slots with
  | nil => rfl
  | cons a rest ih =>
    have hja : j ≠ a := fun h => hj (h ▸ List.mem_cons_self a rest)
    have hjr : j ∉ rest := fun h => hj (List.mem_cons_of_mem a h)
    rw [clearScriptRefs, ih _ hjr, clearScriptStep_ne _ _ _ hja]

theorem clearScriptRefs_mem (idxs : List Nat) (slots : List V8jsScript)
    (i : Nat) (hi : i ∈ idxs) (s : V8jsScript)
    (hs : (clearScriptRefs idxs slots)[i]? = some s) :
    s.owner = none ∧ s.persistentValid = false := by
  induction idxs generalizing slots with
  | nil => exact absurd hi (List.not_mem_nil i)
  | cons a rest ih =>
    by_cases hir : i ∈ rest
    · rw [clearScriptRefs] at hs
      exact ih _ hir hs
    · have hia : i = a := by
        rcases List.mem_cons.mp hi with h | h
        · exact h
        · exact absurd h hir
      subst hia
      rw [clearScriptRefs, clearScriptRefs_not_mem rest _ i hir] at hs
      unfold clearScriptStep at hs
      cases hsl : slots[i]? with
      | none => rw [hsl] at hs; exact absurd (hsl ▸ hs) (by simp)
      | some s0 =>
        rw [hsl] at hs
        have hlen : i < slots.length := by
          by_contra hge
          rw [List.getElem?_eq_none (Nat.le_of_not_lt hge)] at hsl
          exact Option.noConfusion hsl
        rw [List.getElem?_set_eq_of_lt _ (by simpa using hlen)] at hs
        cases Option.some.inj hs
        exact ⟨rfl, rfl⟩

theorem foldl_sub_const {α : Type} (l : List α) (a : Int) (init : Int) :
    l.foldl (fun m _ => m - a) init = init - l.length * a := by
  induction l generalizing init with
  | nil => simp
  | cons x xs ih =>
    rw [List.foldl_cons, ih, List.length_cons]
    push_cast
    ring

/-- C2: teardown empties every cache (compiled-call wrappers, type-method
wrappers, symbol-template cache, accessor contexts, weak object
references, weak closure references, exported-object back-references,
script list, module cache), lowers the external-memory counter by the
average-object-size hint once per weak object released, clears the
back-reference (and compiled-script handle) of every still-live script
resource, and the event trace disposes the isolate exactly once — when
one was created — with every dependent release strictly before the
dispose. -/
theorem free_storage_spec (c : V8jsCtx) (scripts : List V8jsScript) :
    (v8js_free_storage c scripts).1.call_impls = [] ∧
    (v8js_free_storage c scripts).1.method_tmpls = [] ∧
    (v8js_free_storage c scripts).1.template_cache = [] ∧
    (v8js_free_storage c scripts).1.accessor_list = [] ∧
    (v8js_free_storage c scripts).1.weak_objects = [] ∧
    (v8js_free_storage c scripts).1.weak_closures = [] ∧
    (v8js_free_storage c scripts).1.v8js_v8objects = [] ∧
    (v8js_free_storage c scripts).1.script_objects = [] ∧
    (v8js_free_storage c scripts).1.modules_loaded = [] ∧
    (v8js_free_storage c scripts).1.externalMemory
      = c.externalMemory - c.weak_objects.length * c.average_object_size ∧
    (∀ i, i ∈ c.script_objects → ∀ s,
        ((v8js_free_storage c scripts).2.1)[i]? = some s →
        s.owner = none ∧ s.persistentValid = false) ∧
    ((v8js_free_storage c scripts).2.2).count TdEvent.disposeIsolate
      = (if c.isolateCreated then 1 else 0) ∧
    (∃ deps, (v8js_free_storage c scripts).2.2
        = deps ++ (if c.isolateCreated then [TdEvent.disposeIsolate] else [])
            ++ [TdEvent.releaseSnapshotBlob] ∧
      ∀ e ∈ deps, e.isDependentRelease = true) := by
  have hdeps : ∀ e ∈ tdDeps c, e.isDependentRelease = true := by
    intro e he
    unfold tdDeps at he
    simp only [List.mem_append, List.mem_map] at he
    rcases he with ((((((((((he | he) | he) | he) | he) | he) | he) | he)
        | he) | he) | he)
    · split at he <;> simp_all [TdEvent.isDependentRelease]
    · obtain ⟨x, _, rfl⟩ := he; rfl
    · obtain ⟨x, _, rfl⟩ := he; rfl
    · obtain ⟨x, _, rfl⟩ := he; rfl
    · obtain ⟨x, _, rfl⟩ := he; rfl
    · split at he <;> simp_all [TdEvent.isDependentRelease]
    · obtain ⟨x, _, rfl⟩ := he; rfl
    · obtain ⟨x, _, rfl⟩ := he; rfl
    · obtain ⟨x, _, rfl⟩ := he; rfl
    · obtain ⟨x, _, rfl⟩ := he; rfl
    · obtain ⟨x, _, rfl⟩ := he; rfl
  have h0 : (tdDeps c).count TdEvent.disposeIsolate = 0 :=
    List.count_eq_zero.mpr fun hm => by
      have := hdeps _ hm
      simp [TdEvent.isDependentRelease] at this
  unfold v8js_free_storage
  dsimp only
  refine ⟨rfl, rfl, rfl, rfl, rfl, rfl, rfl, rfl, rfl,
    foldl_sub_const _ _ _,
    fun i hi s hs => clearScriptRefs_mem _ _ _ hi _ hs, ?_, ?_⟩
  · rw [List.count_append, List.count_append, h0]
    split <;> simp
  · exact ⟨tdDeps c, by rw [List.append_assoc], hdeps⟩

/-- C3: executing a script resource whose owner back-reference is not the
calling context (another context, or `NULL` after teardown) emits the
wrong-object warning, returns the boolean `false` sentinel, raises no
exception, never invokes the engine, and leaves both the context and the
resource exactly as they were. -/
theorem execute_wrong_ctx_sentinel (c : V8jsCtx) (res : V8jsScript)
    (flags : Int) (tl : Int) (ml : Nat) (er : EngineRun)
    (h : res.owner ≠ some c.id) :
    v8js_execute_script c res flags tl ml er =
      { ctx := c, res := res, returnValue := .boolean false,
        warnings := [wrongCtxWarnMsg], engineCall := none, bailout := false,
        exn := none } := by
  simp [v8js_execute_script, h]

theorem execute_wrong_ctx_sentinel_witness :
    v8js_execute_script sampleConstructed ⟨"stale", none, true⟩ 0 0 0
        ⟨Zval.null, none, false⟩ =
      { ctx := sampleConstructed, res := ⟨"stale", none, true⟩,
        returnValue := .boolean false, warnings := [wrongCtxWarnMsg],
        engineCall := none, bailout := false, exn := none } :=
  execute_wrong_ctx_sentinel sampleConstructed ⟨"stale", none, true⟩ 0 0 0
    ⟨Zval.null, none, false⟩ (by decide)

/-- C4: on a matching resource the limits handed to `v8js_v8_call` are:
the context's configured default when this is not a nested call
(`in_execution` false) and the explicit argument is zero; the explicit
argument unchanged otherwise — in particular a nested call with an
explicit zero passes zero on, so the ambient limit of the outermost call
stays in force and no fresh ceiling is applied. -/
theorem execute_limit_defaulting (c : V8jsCtx) (res : V8jsScript)
    (flags : Int) (tl : Int) (ml : Nat) (er : EngineRun)
    (h : res.owner = some c.id) :
    (v8js_execute_script c res flags tl ml er).engineCall =
      some (if c.in_execution = false ∧ tl = 0 then c.time_limit else tl,
            if c.in_execution = false ∧ ml = 0 then c.memory_limit else ml) := by
  have hne : ¬res.owner ≠ some c.id := fun hn => hn h
  unfold v8js_execute_script
  rw [if_neg hne]
  by_cases h1 : c.in_execution <;> by_cases h2 : tl = 0 <;> by_cases h3 : ml = 0 <;>
    simp [h1, h2, h3]

theorem execute_limit_defaulting_witness :
    (v8js_execute_script sampleConstructed ⟨"s", some 7, true⟩ 0 0 0
        ⟨Zval.long 2, none, false⟩).engineCall =
      some (if sampleConstructed.in_execution = false ∧ (0 : Int) = 0
              then sampleConstructed.time_limit else 0,
            if sampleConstructed.in_execution = false ∧ (0 : Nat) = 0
              then sampleConstructed.memory_limit else 0) :=
  execute_limit_defaulting sampleConstructed ⟨"s", some 7, true⟩ 0 0 0
    ⟨Zval.long 2, none, false⟩ rfl

/-- C5: for both setters, exactly the live (not killed) registry entries
whose context identity matches the caller are rewritten — for
`setTimeLimit` with the new time limit and the recomputed deadline, for
`setMemoryLimit` with the new memory limit — while every other entry
(foreign context or already killed) is returned unchanged; and the trace
is lock, then one mutation per matching live entry, then unlock: no
mutation happens outside the mutex section. -/
theorem setLimits_mutate_live_matching (c : V8jsCtx) (g : V8jsGlobals)
    (now : Int) (tl : Int) (ml : Int) (hml : 0 ≤ ml) :
    ((v8js_setTimeLimit c g now tl).2.1.timer_stack =
      g.timer_stack.map (fun t =>
        if t.ctxId = c.id ∧ t.killed = false then
          { t with time_limit := tl, time_point := now + tl }
        else t)) ∧
    (∃ muts post, (v8js_setTimeLimit c g now tl).2.2 =
        [SetLimitEvent.lockMutex] ++ muts ++ [SetLimitEvent.unlockMutex] ++ post ∧
      (∀ e ∈ muts, e = SetLimitEvent.mutateEntry) ∧
      (∀ e ∈ post, e ≠ SetLimitEvent.mutateEntry) ∧
      muts.length = (g.timer_stack.filter
        (fun t => decide (t.ctxId = c.id ∧ t.killed = false))).length) ∧
    ((v8js_setMemoryLimit c g ml).2.1.timer_stack =
      g.timer_stack.map (fun t =>
        if t.ctxId = c.id ∧ t.killed = false then
          { t with memory_limit := ml.toNat }
        else t)) ∧
    (∃ muts post, (v8js_setMemoryLimit c g ml).2.2.1 =
        [SetLimitEvent.lockMutex] ++ muts ++ [SetLimitEvent.unlockMutex] ++ post ∧
      (∀ e ∈ muts, e = SetLimitEvent.mutateEntry) ∧
      (∀ e ∈ post, e ≠ SetLimitEvent.mutateEntry) ∧
      muts.length = (g.timer_stack.filter
        (fun t => decide (t.ctxId = c.id ∧ t.killed = false))).length) := by
  have hnneg : ¬ml < 0 := not_lt.mpr hml
  refine ⟨rfl, ⟨_, _, rfl, ?_, ?_, List.length_map _ _⟩, ?_, ?_⟩
  · intro e he
    obtain ⟨x, _, rfl⟩ := List.mem_map.mp he
    rfl
  · intro e he
    split at he
    · simp only [List.mem_singleton] at he
      subst he
      decide
    · exact absurd he (List.not_mem_nil e)
  · unfold v8js_setMemoryLimit
    rw [if_neg hnneg]
  · unfold v8js_setMemoryLimit
    rw [if_neg hnneg]
    refine ⟨_, _, rfl, ?_, ?_, List.length_map _ _⟩
    · intro e he
      obtain ⟨x, _, rfl⟩ := List.mem_map.mp he
      rfl
    · intro e he
      split at he
      · simp only [List.mem_singleton] at he
        subst he
        decide
      · exact absurd he (List.not_mem_nil e)

theorem setLimits_mutate_live_matching_witness :
    (v8js_setTimeLimit sampleConstructed
        ⟨[⟨7, 0, 0, 0, false⟩, ⟨7, 0, 0, 0, true⟩, ⟨3, 0, 0, 0, false⟩], true⟩
        100 50).2.1.timer_stack =
      [⟨7, 50, 0, 150, false⟩, ⟨7, 0, 0, 0, true⟩, ⟨3, 0, 0, 0, false⟩] := by
  have h := setLimits_mutate_live_matching sampleConstructed
    ⟨[⟨7, 0, 0, 0, false⟩, ⟨7, 0, 0, 0, true⟩, ⟨3, 0, 0, 0, false⟩], true⟩
    100 50 200 (by decide)
  rw [h.1]
  decide

/-- C7: an oversized identifier or source makes compile throw the
corresponding invalid-argument exception and produce no script resource;
a syntax error makes it raise the script exception carrying the
guest-reported message and location and produce no resource; otherwise
it produces a resource owned by the calling context and raises nothing. -/
theorem compile_spec (c : V8jsCtx) (str : String) (identifier : Option String)
    (eng : CompileOutcome) :
    (identifierTooLong identifier = true →
      v8js_compile_script c str identifier eng =
        ⟨none, some (.v8jsException identifierOversizedMsg)⟩) ∧
    (identifierTooLong identifier = false → str.length > intMax →
      v8js_compile_script c str identifier eng =
        ⟨none, some (.v8jsException sourceOversizedMsg)⟩) ∧
    (identifierTooLong identifier = false → str.length ≤ intMax →
      ∀ msg line col, eng = .syntaxError msg line col →
        v8js_compile_script c str identifier eng =
          ⟨none, some (.scriptException msg line col)⟩) ∧
    (identifierTooLong identifier = false → str.length ≤ intMax → eng = .ok →
      ∃ r, v8js_compile_script c str identifier eng = ⟨some r, none⟩ ∧
        r.owner = some c.id) := by
  refine ⟨?_, ?_, ?_, ?_⟩
  · intro h
    unfold v8js_compile_script
    rw [if_pos h]
  · intro h hs
    unfold v8js_compile_script
    rw [if_neg (by simp [h]), if_pos hs]
  · intro h hs msg line col he
    subst he
    unfold v8js_compile_script
    rw [if_neg (by simp [h]), if_neg (by omega)]
    rfl
  · intro h hs he
    subst he
    unfold v8js_compile_script
    rw [if_neg (by simp [h]), if_neg (by omega)]
    exact ⟨_, rfl, rfl⟩

/-- C8: the seed blob is all-or-nothing — `createSnapshotDataBlob`
yields either nothing or exactly the engine's full blob, never a prefix;
a seed that fails to compile or throws while running gives the
host-visible `false` with a warning; a seed that compiles and runs gives
the full byte blob. -/
theorem createSnapshot_all_or_nothing (script : String) (eng : SeedEngine) :
    (createSnapshotDataBlob eng = none ∨
      createSnapshotDataBlob eng = some eng.blob) ∧
    (script.length ≠ 0 → (eng.compiles = false ∨ eng.runsOk = false) →
      createSnapshot script eng = (SnapRet.failure, [snapshotFailedWarnMsg])) ∧
    (script.length ≠ 0 → eng.compiles = true → eng.runsOk = true →
      createSnapshot script eng = (SnapRet.blobStr eng.blob, [])) := by
  refine ⟨?_, ?_, ?_⟩
  · unfold createSnapshotDataBlob
    split
    · exact Or.inl rfl
    · exact Or.inr rfl
  · intro hs hf
    unfold createSnapshot
    rw [if_neg hs]
    have hb : createSnapshotDataBlob eng = none := by
      unfold createSnapshotDataBlob
      rcases hf with hf | hf <;> simp [hf]
    rw [hb]
  · intro hs hc hr
    unfold createSnapshot
    rw [if_neg hs]
    have hb : createSnapshotDataBlob eng = some eng.blob := by
      unfold createSnapshotDataBlob
      simp [hc, hr]
    rw [hb]

theorem jsDefineOwn_find (l : List (String × GuestVal × Bool)) (k : String)
    (v : GuestVal) (ro : Bool) :
    (jsDefineOwn l k v ro).find? (fun p => p.1 == k) = some (k, v, ro) := by
  induction l with
  | nil => simp [jsDefineOwn, List.find?]
  | cons p rest ih =>
    unfold jsDefineOwn
    by_cases hp : p.1 == k
    · simp [hp, List.find?]
    · simp only [hp, if_false, Bool.false_eq_true]
      rw [List.find?]
      simp only [hp]
      exact ih

/-- C10: a host-side write to an undeclared or declared-public property
defines the member read-only on the guest-side exported object with the
marshalled value (so a lookup there now yields it) and also performs the
host-side write; a write to a declared non-public property touches only
the host side; a host-side unset deletes the member from the guest-side
exported object and unsets it on the host side. -/
theorem write_unset_property_spec (c : V8jsCtx) (member : String) (value : Zval) :
    (member.length ≤ intMax →
      exportCondition (lookupPropInfo c.classPropInfo member) = true →
      v8js_write_property c member value =
        ({ c with
            jsObjProps := jsDefineOwn c.jsObjProps member (.ofZval value) true
            hostProps := setAssoc c.hostProps member value }, none)) ∧
    (member.length ≤ intMax →
      exportCondition (lookupPropInfo c.classPropInfo member) = true →
      ((v8js_write_property c member value).1.jsObjProps.find?
          (fun p => p.1 == member)) = some (member, .ofZval value, true)) ∧
    (exportCondition (lookupPropInfo c.classPropInfo member) = false →
      v8js_write_property c member value =
        ({ c with hostProps := setAssoc c.hostProps member value }, none)) ∧
    (member.length ≤ intMax →
      v8js_unset_property c member =
        ({ c with
            jsObjProps := jsDelete c.jsObjProps member
            hostProps := c.hostProps.filter (fun p => p.1 != member) }, none)) := by
  refine ⟨?_, ?_, ?_, ?_⟩
  · intro hlen hexp
    unfold v8js_write_property
    rw [if_pos hexp, if_neg (by omega)]
  · intro hlen hexp
    unfold v8js_write_property
    rw [if_pos hexp, if_neg (by omega)]
    exact jsDefineOwn_find _ _ _ _
  · intro hexp
    unfold v8js_write_property
    rw [if_neg (by simp [hexp])]
  · intro hlen
    unfold v8js_unset_property
    rw [if_neg (by omega)]

end V8js
